import Mathlib

/-!
Verification of the provider-abstraction and query-orchestration core of the
ragfood-nextjs repository, as a shallow embedding in Lean.

Numeric values (`number` in the source) are modelled as real numbers.
Fallible operations (functions that can `throw`) are modelled as `Except String`.
Remote calls and other effects are modelled by passing their outcomes in
explicitly as `Except` values.
-/

/-- A record stored in `SimpleVectorDatabase.documents`
(`src/lib/providers/database.ts`, line 18). -/
structure StoredDoc where
  id : String
  text : String
  embedding : List ℝ

/-- The in-memory state of `SimpleVectorDatabase`: the ordered list of stored
documents (insertion order preserved). -/
structure SimpleStore where
  documents : List StoredDoc

/-- Result shape returned by `VectorDatabase.query` (`RagResult` in
`src/lib/types`): parallel arrays of texts, ids and distances. -/
structure RagResult where
  documents : List String
  ids : List String
  distances : List ℝ

/-- Sum of squares of the entries of a vector; the value accumulated in
`normA`/`normB` before the square root is taken
(`src/lib/providers/database.ts`, lines 100-108). -/
def sqSum (a : List ℝ) : ℝ := (a.map fun x => x * x).sum

/-- `SimpleVectorDatabase.cosineSimilarity` (`src/lib/providers/database.ts`,
lines 95-118): throws on a length mismatch, returns 0 when either vector has
zero magnitude, otherwise the dot product divided by the product of the
magnitudes. -/
noncomputable def cosineSimilarity (a b : List ℝ) : Except String ℝ :=
  if a.length ≠ b.length then
    .error "Vectors must have the same length"
  else
    let dotProduct := (List.zipWith (fun x y => x * y) a b).sum
    let normA := Real.sqrt (sqSum a)
    let normB := Real.sqrt (sqSum b)
    if normA = 0 ∨ normB = 0 then .ok 0
    else .ok (dotProduct / (normA * normB))

/-- A scored document: the spread `{...doc, similarity, distance}` built while
querying (`src/lib/providers/database.ts`, lines 71-78). -/
structure Scored where
  id : String
  text : String
  embedding : List ℝ
  similarity : ℝ
  distance : ℝ

/-- Sequencing of a throwing callback over `Array.prototype.map`: the first
`throw` aborts the whole `query` call. -/
def mapE (f : α → Except String β) : List α → Except String (List β)
  | [] => .ok []
  | a :: as =>
    match f a with
    | .error e => .error e
    | .ok b =>
      match mapE f as with
      | .error e => .error e
      | .ok bs => .ok (b :: bs)

/-- Scoring of one stored document against the query vector
(`src/lib/providers/database.ts`, lines 71-78): similarity from
`cosineSimilarity`, distance `1 - similarity`. -/
noncomputable def scoreDoc (v : List ℝ) (d : StoredDoc) : Except String Scored :=
  match cosineSimilarity v d.embedding with
  | .error e => .error e
  | .ok s => .ok ⟨d.id, d.text, d.embedding, s, 1 - s⟩

/-- The comparator `(a, b) => b.similarity - a.similarity` used by
`similarities.sort` (`src/lib/providers/database.ts`, line 81), rendered as the
boolean order "`a` may come before `b`". -/
noncomputable def simLE (a b : Scored) : Bool := decide (b.similarity ≤ a.similarity)

/-- `SimpleVectorDatabase.query` (`src/lib/providers/database.ts`,
lines 60-89). An empty store short-circuits to an empty result; a string query
throws; otherwise every document is scored, the list is sorted by descending
similarity with JavaScript's stable `sort`, and the first `nResults` entries
are projected into parallel arrays. -/
noncomputable def query (store : SimpleStore) (q : String ⊕ List ℝ) (nResults : ℕ) :
    Except String RagResult :=
  if store.documents.isEmpty then .ok ⟨[], [], []⟩
  else
    match q with
    | .inl _ =>
      .error "SimpleVectorDatabase does not support text queries. Please provide vector embeddings."
    | .inr v =>
      match mapE (scoreDoc v) store.documents with
      | .error e => .error e
      | .ok sims =>
        let topResults := (sims.mergeSort simLE).take nResults
        .ok ⟨topResults.map (·.text), topResults.map (·.id), topResults.map (·.distance)⟩

/-- `SimpleVectorDatabase.getExistingIds` (`src/lib/providers/database.ts`,
lines 91-93). -/
def getExistingIds (store : SimpleStore) : List String :=
  store.documents.map (·.id)

/-- Body of the `addDocuments` loop (`src/lib/providers/database.ts`,
lines 43-53): drop any stored document sharing the incoming id, then append
the new document. -/
def upsert (docs : List StoredDoc) (t : String) (e : List ℝ) (i : String) :
    List StoredDoc :=
  docs.filter (fun d => d.id ≠ i) ++ [⟨i, t, e⟩]

/-- `SimpleVectorDatabase.addDocuments` (`src/lib/providers/database.ts`,
lines 41-58): the loop over the three parallel arrays, upserting entry by
entry. (Callers always pass arrays of equal length.) -/
def addDocuments (store : SimpleStore) (documents : List String)
    (embeddings : List (List ℝ)) (ids : List String) : SimpleStore :=
  ⟨(documents.zip (embeddings.zip ids)).foldl
    (fun acc x => upsert acc x.1 x.2.1 x.2.2) store.documents⟩

/-- `DEFAULT_RAG_RESULTS` (`src/lib/config`). -/
def DEFAULT_RAG_RESULTS : ℕ := 3

/-- `RagDetails` as assembled by the query orchestrator
(`src/unnamed/part_000`, lines 119-125 and 171-177). -/
structure RagDetails where
  documents : List String
  ids : List String
  similarities : List ℝ
  processingTime : ℕ
  resultCount : ℕ

/-- Outcome of `ragQuery` (`RagQueryResponse` in `src/lib/types`): a tagged
success/error result. -/
structure RagQueryResponse where
  success : Bool
  llmResponse : Option String
  ragDetails : Option RagDetails
  error : Option String

/-- Outcome of `getRagSearchResults` (`src/unnamed/part_000`,
lines 153-178). -/
structure RagSearchResponse where
  success : Bool
  ragDetails : Option RagDetails
  error : Option String

/-- The prompt template of `ragQuery` / `getLlmResponse`
(`src/unnamed/part_000`, lines 95-101 and 198-204). -/
def buildPrompt (question context : String) : String :=
  "Use the following context to answer the question.\n\nContext:\n" ++ context ++
    "\n\nQuestion: " ++ question ++ "\nAnswer:"

/-- `ragQuery` (`src/unnamed/part_000`, lines 56-135). The effectful
sub-calls (schema validation, provider initialization, question embedding,
vector search, language-model call) are passed in as their outcomes; the
language model is a function of the prompt, so the prompt actually sent is
visible. Thrown errors are caught and shaped into `{success: false, error}`. -/
def ragQuery (validated : Except String String) (initRes : Except String Unit)
    (embedRes : Except String (List ℝ)) (searchRes : Except String RagResult)
    (llm : String → Except String String) (totalTime : ℕ) : RagQueryResponse :=
  match validated with
  | .error e => ⟨false, none, none, some e⟩
  | .ok question =>
    match initRes with
    | .error e => ⟨false, none, none, some e⟩
    | .ok _ =>
      match embedRes with
      | .error e => ⟨false, none, none, some e⟩
      | .ok _ =>
        match searchRes with
        | .error e => ⟨false, none, none, some e⟩
        | .ok searchResults =>
          if searchResults.documents.length = 0 then
            ⟨false, none, none, some "No relevant information found in the database"⟩
          else
            match llm (buildPrompt question
                (String.intercalate "\n" searchResults.documents)) with
            | .error e => ⟨false, none, none, some e⟩
            | .ok answer =>
              ⟨true, some answer,
                some ⟨searchResults.documents, searchResults.ids,
                  searchResults.distances.map (fun distance => max 0 (1 - distance)),
                  totalTime, searchResults.documents.length⟩,
                none⟩

/-- `getRagSearchResults` (`src/unnamed/part_000`, lines 138-187): the
search-only entry point, passing the raw question text to the store. -/
def getRagSearchResults (validated : Except String String)
    (initRes : Except String Unit) (searchRes : Except String RagResult)
    (searchTime : ℕ) : RagSearchResponse :=
  match validated with
  | .error e => ⟨false, none, some e⟩
  | .ok _ =>
    match initRes with
    | .error e => ⟨false, none, some e⟩
    | .ok _ =>
      match searchRes with
      | .error e => ⟨false, none, some e⟩
      | .ok searchResults =>
        if searchResults.documents.length = 0 then
          ⟨false, none, some "No relevant information found in the database"⟩
        else
          ⟨true,
            some ⟨searchResults.documents, searchResults.ids,
              searchResults.distances.map (fun distance => max 0 (1 - distance)),
              searchTime, searchResults.documents.length⟩,
            none⟩

/-- A food record (`FoodItem` in `src/lib/types`): required id and text,
optional region and type. -/
structure FoodItem where
  id : String
  text : String
  region : Option String
  type : Option String

/-- The text enrichment in `embedFoodsData` (`src/unnamed/part_001`,
lines 238-245): appends region and type sentences to the indexed text. -/
def enrichText (item : FoodItem) : String :=
  let t0 := item.text
  let t1 := match item.region with
    | some r => t0 ++ " This food is popular in " ++ r ++ "."
    | none => t0
  match item.type with
  | some ty => t1 ++ " It is a type of " ++ ty ++ "."
  | none => t1

/-- The per-batch document preparation of `embedFoodsData`
(`src/unnamed/part_001`, lines 231-253): enriched texts, empty embedding
vectors (the hosted store embeds internally) and the item ids, as the three
parallel arrays handed to `addDocuments`. -/
def prepareBatch (items : List FoodItem) :
    List String × List (List ℝ) × List String :=
  (items.map enrichText, items.map (fun _ => ([] : List ℝ)), items.map (·.id))

/-- The concrete record of the spec's end-to-end scenario. -/
def item1 : FoodItem :=
  ⟨"1", "A banana is a yellow fruit.", some "Tropical", some "Fruit"⟩

/-- The module-level provider singletons of `src/unnamed/part_000`,
lines 10-13: `dbInstance`, `embeddingInstance`, `llmInstance`,
`isInitialized`. Instances are modelled as opaque numeric handles. -/
structure ProviderState where
  dbInstance : Option ℕ
  embeddingInstance : Option ℕ
  llmInstance : Option ℕ
  isInitialized : Bool

/-- The uninitialized provider state (all handles null, flag false). -/
def initialProviderState : ProviderState := ⟨none, none, none, false⟩

/-- `initializeProviders` (`src/unnamed/part_000`, lines 16-53). Each factory
or initialization step's outcome is passed in; a missing singleton runs its
step, an existing one is reused. Any failure is caught, all module-level
handles are reset to null and the flag to false, and the error is rethrown. -/
def initializeProviders (s : ProviderState)
    (createDb : Except String ℕ) (initDb : Except String Unit)
    (createEmbedding : Except String ℕ) (createLlm : Except String ℕ) :
    Except String (ℕ × ℕ × ℕ) × ProviderState :=
  match (match s.dbInstance with | some d => Except.ok d | none => createDb) with
  | .error e => (.error e, initialProviderState)
  | .ok db =>
    match (if s.isInitialized then Except.ok () else initDb) with
    | .error e => (.error e, initialProviderState)
    | .ok _ =>
      match (match s.embeddingInstance with
             | some x => Except.ok x
             | none => createEmbedding) with
      | .error e => (.error e, initialProviderState)
      | .ok emb =>
        match (match s.llmInstance with | some x => Except.ok x | none => createLlm) with
        | .error e => (.error e, initialProviderState)
        | .ok llm => (.ok (db, emb, llm), ⟨some db, some emb, some llm, true⟩)

/-- `RETRY_COUNT` (`src/lib/providers/database.ts`, line 134). -/
def RETRY_COUNT : ℕ := 3

/-- `RETRY_DELAY` in milliseconds (`src/lib/providers/database.ts`,
line 135). -/
def RETRY_DELAY : ℕ := 1000

/-- The loop of `UpstashDatabase.withRetry` (`src/lib/providers/database.ts`,
lines 164-183). `op n` is the outcome of the n-th attempt (1-based); the
returned list records the backoff delays actually slept, in milliseconds.
The first argument counts the remaining loop iterations. -/
def withRetryLoop (op : ℕ → Except String α) :
    ℕ → ℕ → Option String → List ℕ → Except String α × List ℕ
  | 0, _, lastError, delays =>
    (.error ("Operation failed after " ++ toString RETRY_COUNT ++
      " attempts. Last error: " ++
      (match lastError with | some m => m | none => "undefined")), delays)
  | rem + 1, attempt, _, delays =>
    match op attempt with
    | .ok v => (.ok v, delays)
    | .error e =>
      if attempt < RETRY_COUNT then
        withRetryLoop op rem (attempt + 1) (some e)
          (delays ++ [RETRY_DELAY * 2 ^ (attempt - 1)])
      else
        withRetryLoop op rem (attempt + 1) (some e) delays

/-- `UpstashDatabase.withRetry` (`src/lib/providers/database.ts`,
lines 164-183): run the attempts from 1 up to `RETRY_COUNT`. -/
def withRetry (op : ℕ → Except String α) : Except String α × List ℕ :=
  withRetryLoop op RETRY_COUNT 1 none []

/-- A remote operation that fails on every attempt. -/
def failOp : ℕ → Except String ℕ := fun _ => .error "boom"

/-- A remote operation that fails twice and succeeds on the third attempt. -/
def thirdTryOp : ℕ → Except String ℕ :=
  fun n => if n = 3 then .ok 42 else .error ("fail " ++ toString n)

lemma sqSum_nonneg (a : List ℝ) : 0 ≤ sqSum a := by
  apply List.sum_nonneg
  intro x hx
  obtain ⟨y, _, rfl⟩ := List.mem_map.mp hx
  exact mul_self_nonneg y

lemma zipWith_mul_self (a : List ℝ) :
    List.zipWith (fun x y => x * y) a a = a.map fun x => x * x := by
  induction a with
  | nil => rfl
  | cons x xs ih => simp [List.zipWith, ih]

lemma cosineSimilarity_of_length (a b : List ℝ) (h : a.length = b.length) :
    cosineSimilarity a b =
      if Real.sqrt (sqSum a) = 0 ∨ Real.sqrt (sqSum b) = 0 then Except.ok 0
      else Except.ok ((List.zipWith (fun x y => x * y) a b).sum /
        (Real.sqrt (sqSum a) * Real.sqrt (sqSum b))) := by
  have h' : ¬(a.length ≠ b.length) := by omega
  unfold cosineSimilarity
  simp only [if_neg h']

lemma cosineSimilarity_comm (a b : List ℝ) (h : a.length = b.length) :
    cosineSimilarity a b = cosineSimilarity b a := by
  rw [cosineSimilarity_of_length a b h, cosineSimilarity_of_length b a h.symm]
  by_cases hz : Real.sqrt (sqSum a) = 0 ∨ Real.sqrt (sqSum b) = 0
  · rw [if_pos hz, if_pos hz.symm]
  · rw [if_neg hz, if_neg (fun hc => hz hc.symm)]
    rw [List.zipWith_comm_of_comm (fun x y => x * y) (fun x y => mul_comm x y) b a]
    rw [mul_comm (Real.sqrt (sqSum b)) (Real.sqrt (sqSum a))]

lemma cosineSimilarity_self (a : List ℝ) (hz : sqSum a ≠ 0) :
    cosineSimilarity a a = .ok 1 := by
  have hnn := sqSum_nonneg a
  have hsqrt : Real.sqrt (sqSum a) ≠ 0 := by
    rw [ne_eq, Real.sqrt_eq_zero hnn]
    exact hz
  rw [cosineSimilarity_of_length a a rfl]
  rw [if_neg (by rintro (h | h) <;> exact hsqrt h)]
  rw [zipWith_mul_self, Real.mul_self_sqrt hnn]
  rw [show (a.map fun x => x * x).sum = sqSum a from rfl]
  rw [div_self hz]

lemma cosineSimilarity_zero_mag (a b : List ℝ) (h : a.length = b.length)
    (hz : Real.sqrt (sqSum a) = 0 ∨ Real.sqrt (sqSum b) = 0) :
    cosineSimilarity a b = .ok 0 := by
  rw [cosineSimilarity_of_length a b h, if_pos hz]

lemma cosineSimilarity_ok_of_length (a b : List ℝ) (h : a.length = b.length) :
    ∃ s, cosineSimilarity a b = .ok s := by
  rw [cosineSimilarity_of_length a b h]
  by_cases hz : Real.sqrt (sqSum a) = 0 ∨ Real.sqrt (sqSum b) = 0
  · exact ⟨0, by rw [if_pos hz]⟩
  · exact ⟨_, by rw [if_neg hz]⟩

lemma cosineSimilarity_error_iff (a b : List ℝ) :
    cosineSimilarity a b = .error "Vectors must have the same length" ↔
      a.length ≠ b.length := by
  constructor
  · intro h hlen
    obtain ⟨s, hs⟩ := cosineSimilarity_ok_of_length a b hlen
    rw [h] at hs
    exact Except.noConfusion hs
  · intro hlen
    unfold cosineSimilarity
    rw [if_pos hlen]

lemma simLE_trans : ∀ a b c : Scored, simLE a b → simLE b c → simLE a c := by
  intro a b c hab hbc
  simp only [simLE, decide_eq_true_eq] at *
  exact le_trans hbc hab

lemma simLE_total : ∀ a b : Scored, simLE a b || simLE b a := by
  intro a b
  simp only [simLE, Bool.or_eq_true, decide_eq_true_eq]
  exact le_total b.similarity a.similarity

lemma mapE_ok {f : α → Except String β} :
    ∀ {l : List α}, (∀ a ∈ l, ∃ b, f a = .ok b) →
      ∃ bs, mapE f l = .ok bs ∧ bs.length = l.length := by
  intro l
  induction l with
  | nil => exact fun _ => ⟨[], rfl, rfl⟩
  | cons a as ih =>
    intro h
    obtain ⟨b, hb⟩ := h a (List.mem_cons_self a as)
    obtain ⟨bs, hbs, hlen⟩ := ih (fun x hx => h x (List.mem_cons_of_mem a hx))
    exact ⟨b :: bs, by simp [mapE, hb, hbs], by simp [hlen]⟩

lemma scoreDoc_ok (v : List ℝ) (d : StoredDoc) (h : v.length = d.embedding.length) :
    ∃ s, scoreDoc v d = .ok s := by
  obtain ⟨s, hs⟩ := cosineSimilarity_ok_of_length v d.embedding h
  exact ⟨⟨d.id, d.text, d.embedding, s, 1 - s⟩, by simp [scoreDoc, hs]⟩

lemma query_inr (store : SimpleStore) (v : List ℝ) (k : ℕ)
    (hne : store.documents ≠ []) :
    query store (Sum.inr v) k =
      match mapE (scoreDoc v) store.documents with
      | .error e => .error e
      | .ok sims =>
        Except.ok ⟨((sims.mergeSort simLE).take k).map (·.text),
          ((sims.mergeSort simLE).take k).map (·.id),
          ((sims.mergeSort simLE).take k).map (·.distance)⟩ := by
  unfold query
  rw [if_neg (by simp [List.isEmpty_iff, hne])]

/-- **C3**: on a non-empty local store with `n ≥ k` records (all embeddings of
the query's dimension), `query` scores every stored document against the query
vector and returns exactly `k` results: the first `k` entries of a ranking of
all the scored documents that is strictly ordered by descending cosine
similarity, equal similarities being ordered by original insertion position
(the stable-sort tie-break). Each result's distance is `1 − similarity`. -/
theorem C3_query_topk (store : SimpleStore) (v : List ℝ) (k : ℕ)
    (hne : store.documents ≠ [])
    (hdim : ∀ d ∈ store.documents, v.length = d.embedding.length)
    (hk : k ≤ store.documents.length) :
    ∃ (sims : List Scored) (ranked : List (ℕ × Scored)),
      mapE (scoreDoc v) store.documents = Except.ok sims ∧
      List.Perm ranked sims.enum ∧
      ranked.Pairwise (fun a b =>
        b.2.similarity < a.2.similarity ∨
          (a.2.similarity = b.2.similarity ∧ a.1 < b.1)) ∧
      query store (Sum.inr v) k =
        Except.ok ⟨(ranked.take k).map (·.2.text), (ranked.take k).map (·.2.id),
          (ranked.take k).map (·.2.distance)⟩ ∧
      (ranked.take k).length = k := by
  have hall : ∀ d ∈ store.documents, ∃ s, scoreDoc v d = Except.ok s :=
    fun d hd => scoreDoc_ok v d (hdim d hd)
  obtain ⟨sims, hsims, hslen⟩ := mapE_ok hall
  refine ⟨sims, (sims.enum).mergeSort (List.enumLE simLE), hsims,
    List.mergeSort_perm _ _, ?_, ?_, ?_⟩
  · -- sortedness with the stable tie-break
    have hs := List.sorted_mergeSort
      (List.enumLE_trans simLE_trans) (List.enumLE_total simLE_total) sims.enum
    have hfst : ((sims.enum).mergeSort (List.enumLE simLE)).Pairwise
        (fun a b : ℕ × Scored => a.1 ≠ b.1) := by
      have h1 : (sims.enum.map Prod.fst).Nodup := by
        rw [List.enum_map_fst]
        exact List.nodup_range _
      have h2 : (((sims.enum).mergeSort (List.enumLE simLE)).map Prod.fst).Nodup :=
        (((List.mergeSort_perm sims.enum (List.enumLE simLE)).map Prod.fst).nodup_iff).mpr h1
      exact List.pairwise_map.mp h2
    refine (hs.and hfst).imp ?_
    rintro a b ⟨henum, hab⟩
    by_cases h1 : simLE a.2 b.2
    · by_cases h2 : simLE b.2 a.2
      · right
        have hidx : a.1 ≤ b.1 := by
          simp [List.enumLE, h1, h2] at henum
          exact henum
        simp only [simLE, decide_eq_true_eq] at h1 h2
        exact ⟨le_antisymm h2 h1, by omega⟩
      · left
        simp only [simLE, decide_eq_true_eq] at h1 h2
        exact lt_of_le_not_le h1 h2
    · exfalso
      simp [List.enumLE, h1] at henum
  · -- the query call returns the top-k projection of the ranking
    have hms : sims.mergeSort simLE =
        ((sims.enum).mergeSort (List.enumLE simLE)).map (·.2) :=
      List.mergeSort_enum.symm
    rw [query_inr store v k hne, hsims]
    simp only [hms, List.map_take, List.map_map, Function.comp]
    rfl
  · rw [List.length_take, List.length_mergeSort, List.enum_length, hslen]
    omega

/-- Witness for C3: a concrete two-document store queried with `k = 1`. -/
theorem C3_witness :
    ∃ (sims : List Scored) (ranked : List (ℕ × Scored)),
      mapE (scoreDoc []) [⟨"a", "ta", []⟩, ⟨"b", "tb", []⟩] = Except.ok sims ∧
      List.Perm ranked sims.enum ∧
      ranked.Pairwise (fun a b =>
        b.2.similarity < a.2.similarity ∨
          (a.2.similarity = b.2.similarity ∧ a.1 < b.1)) ∧
      query ⟨[⟨"a", "ta", []⟩, ⟨"b", "tb", []⟩]⟩ (Sum.inr []) 1 =
        Except.ok ⟨(ranked.take 1).map (·.2.text), (ranked.take 1).map (·.2.id),
          (ranked.take 1).map (·.2.distance)⟩ ∧
      (ranked.take 1).length = 1 :=
  C3_query_topk ⟨[⟨"a", "ta", []⟩, ⟨"b", "tb", []⟩]⟩ [] 1
    (by simp)
    (by
      intro d hd
      rcases List.mem_cons.mp hd with rfl | hd2
      · rfl
      rcases List.mem_cons.mp hd2 with rfl | hd3
      · rfl
      exact absurd hd3 (List.not_mem_nil d))
    (by simp)

lemma filter_ne_length (i : String) :
    ∀ (docs : List StoredDoc), (docs.map (·.id)).Nodup → i ∈ docs.map (·.id) →
      (docs.filter (fun d => d.id ≠ i)).length + 1 = docs.length := by
  intro docs
  induction docs with
  | nil => intro _ h; simp at h
  | cons d ds ih =>
    intro hnd hmem
    simp only [List.map_cons, List.nodup_cons] at hnd
    by_cases hdi : d.id = i
    · have hds : (ds.filter fun x => x.id ≠ i) = ds := by
        rw [List.filter_eq_self]
        intro x hx
        simp only [ne_eq, decide_eq_true_eq]
        intro hxi
        apply hnd.1
        rw [hdi, ← hxi]
        exact List.mem_map_of_mem (·.id) hx
      have hc : (decide (d.id ≠ i)) = false := by simp [hdi]
      rw [List.filter_cons, hc, if_neg (by simp), hds, List.length_cons]
    · have hmem' : i ∈ ds.map (·.id) := by
        rcases List.mem_cons.mp hmem with h | h
        · exact absurd h.symm hdi
        · exact h
      have := ih hnd.2 hmem'
      have hc : (decide (d.id ≠ i)) = true := by simp [hdi]
      rw [List.filter_cons, hc, if_pos rfl, List.length_cons, List.length_cons]
      omega

lemma upsert_length (docs : List StoredDoc) (t : String) (e : List ℝ) (i : String)
    (hnd : (docs.map (·.id)).Nodup) (hmem : i ∈ docs.map (·.id)) :
    (upsert docs t e i).length = docs.length := by
  have := filter_ne_length i docs hnd hmem
  simp only [upsert, List.length_append, List.length_singleton]
  omega

lemma upsert_filter_eq (docs : List StoredDoc) (t : String) (e : List ℝ) (i : String) :
    (upsert docs t e i).filter (fun d => d.id = i) = [⟨i, t, e⟩] := by
  simp only [upsert, List.filter_append, List.filter_filter]
  rw [List.filter_eq_nil_iff.mpr]
  · simp
  · intro a _
    simp only [ne_eq, Bool.and_eq_true, decide_eq_true_eq, not_and]
    intro h1 h2
    exact h2 h1

lemma upsert_mem_ids (docs : List StoredDoc) (t : String) (e : List ℝ) (i : String)
    (hmem : i ∈ docs.map (·.id)) (x : String) :
    x ∈ (upsert docs t e i).map (·.id) ↔ x ∈ docs.map (·.id) := by
  simp only [upsert, List.map_append, List.map_cons, List.map_nil,
    List.mem_append, List.mem_singleton]
  constructor
  · rintro (hx | rfl)
    · obtain ⟨d, hd, rfl⟩ := List.mem_map.mp hx
      exact List.mem_map_of_mem (·.id) (List.mem_of_mem_filter hd)
    · exact hmem
  · intro hx
    by_cases hxi : x = i
    · right; exact hxi
    · left
      obtain ⟨d, hd, rfl⟩ := List.mem_map.mp hx
      refine List.mem_map_of_mem (·.id) (List.mem_filter.mpr ⟨hd, ?_⟩)
      simpa using hxi

lemma upsert_nodup (docs : List StoredDoc) (t : String) (e : List ℝ) (i : String)
    (hnd : (docs.map (·.id)).Nodup) :
    ((upsert docs t e i).map (·.id)).Nodup := by
  simp only [upsert, List.map_append, List.map_cons, List.map_nil]
  rw [List.nodup_append]
  refine ⟨((List.filter_sublist docs).map (·.id)).nodup hnd, by simp, ?_⟩
  intro x hx
  obtain ⟨d, hd, rfl⟩ := List.mem_map.mp hx
  have := (List.mem_filter.mp hd).2
  simp only [ne_eq, decide_eq_true_eq] at this
  simpa using this

lemma addDocuments_nodup_aux :
    ∀ (xs : List (String × List ℝ × String)) (docs : List StoredDoc),
      (docs.map (·.id)).Nodup →
      ((xs.foldl (fun acc x => upsert acc x.1 x.2.1 x.2.2) docs).map (·.id)).Nodup := by
  intro xs
  induction xs with
  | nil => intro docs h; exact h
  | cons x xs ih => intro docs h; exact ih _ (upsert_nodup _ _ _ _ h)

lemma addDocuments_single (store : SimpleStore) (t : String) (e : List ℝ) (i : String) :
    addDocuments store [t] [e] [i] = ⟨upsert store.documents t e i⟩ := rfl

/-- **C5**: re-adding a document whose id is already stored leaves the record
count unchanged, replaces the stored text and embedding for that id, leaves
the id set unchanged, and `getExistingIds` never reports a duplicate id after
any `addDocuments` call. -/
theorem C5_upsert (store : SimpleStore) (i t : String) (e : List ℝ)
    (hnd : (getExistingIds store).Nodup)
    (hmem : i ∈ getExistingIds store) :
    (addDocuments store [t] [e] [i]).documents.length = store.documents.length ∧
    (addDocuments store [t] [e] [i]).documents.filter (fun d => d.id = i) =
      [⟨i, t, e⟩] ∧
    (∀ x, x ∈ getExistingIds (addDocuments store [t] [e] [i]) ↔
      x ∈ getExistingIds store) ∧
    (∀ (ds : List String) (es : List (List ℝ)) (is : List String),
      (getExistingIds (addDocuments store ds es is)).Nodup) := by
  refine ⟨?_, ?_, ?_, ?_⟩
  · rw [addDocuments_single]
    exact upsert_length store.documents t e i hnd hmem
  · rw [addDocuments_single]
    exact upsert_filter_eq store.documents t e i
  · intro x
    rw [addDocuments_single]
    exact upsert_mem_ids store.documents t e i hmem x
  · intro ds es is
    exact addDocuments_nodup_aux (ds.zip (es.zip is)) store.documents hnd

/-- Witness for C5: a store holding ids A, B, C, with B re-added. -/
theorem C5_witness :
    ((addDocuments (addDocuments ⟨[]⟩ ["ta", "tb", "tc"] [[], [], []] ["A", "B", "C"])
        ["tb2"] [[]] ["B"]).documents.length =
      (addDocuments ⟨[]⟩ ["ta", "tb", "tc"] [[], [], []] ["A", "B", "C"]).documents.length) ∧
    ((addDocuments (addDocuments ⟨[]⟩ ["ta", "tb", "tc"] [[], [], []] ["A", "B", "C"])
        ["tb2"] [[]] ["B"]).documents.filter (fun d => d.id = "B") = [⟨"B", "tb2", []⟩]) ∧
    ("A" ∈ getExistingIds (addDocuments
        (addDocuments ⟨[]⟩ ["ta", "tb", "tc"] [[], [], []] ["A", "B", "C"])
        ["tb2"] [[]] ["B"]) ↔
      "A" ∈ getExistingIds (addDocuments ⟨[]⟩ ["ta", "tb", "tc"] [[], [], []] ["A", "B", "C"])) ∧
    (getExistingIds (addDocuments
        (addDocuments ⟨[]⟩ ["ta", "tb", "tc"] [[], [], []] ["A", "B", "C"])
        ["tb2"] [[]] ["B"])).Nodup := by
  have h := C5_upsert (addDocuments ⟨[]⟩ ["ta", "tb", "tc"] [[], [], []] ["A", "B", "C"])
    "B" "tb2" [] (by decide) (by decide)
  exact ⟨h.1, h.2.1, h.2.2.1 "A", h.2.2.2 ["tb2"] [[]] ["B"]⟩

/-- **C6**: cosine similarity is symmetric on equal-length vectors, returns
exactly 1 on a non-zero vector paired with itself, returns 0 whenever either
vector has zero magnitude, and fails with the length-mismatch error exactly
when the two lengths differ. -/
theorem C6_cosineSimilarity_props :
    (∀ a b : List ℝ, a.length = b.length →
        cosineSimilarity a b = cosineSimilarity b a) ∧
    (∀ a : List ℝ, sqSum a ≠ 0 → cosineSimilarity a a = .ok 1) ∧
    (∀ a b : List ℝ, a.length = b.length →
        Real.sqrt (sqSum a) = 0 ∨ Real.sqrt (sqSum b) = 0 →
        cosineSimilarity a b = .ok 0) ∧
    (∀ a b : List ℝ,
        (cosineSimilarity a b = .error "Vectors must have the same length" ↔
          a.length ≠ b.length)) :=
  ⟨cosineSimilarity_comm, cosineSimilarity_self, cosineSimilarity_zero_mag,
    cosineSimilarity_error_iff⟩

/-- Witness for C6 at concrete vectors. -/
theorem C6_witness :
    (cosineSimilarity [(1 : ℝ), 0] [0, 1] = cosineSimilarity [0, 1] [1, 0]) ∧
    (cosineSimilarity [(1 : ℝ), 0] [1, 0] = .ok 1) ∧
    (cosineSimilarity [(0 : ℝ), 0] [1, 2] = .ok 0) ∧
    (cosineSimilarity [(1 : ℝ)] [1, 2] = .error "Vectors must have the same length") := by
  refine ⟨C6_cosineSimilarity_props.1 [1, 0] [0, 1] rfl,
    C6_cosineSimilarity_props.2.1 [1, 0] ?_,
    C6_cosineSimilarity_props.2.2.1 [0, 0] [1, 2] rfl ?_,
    (C6_cosineSimilarity_props.2.2.2 [1] [1, 2]).mpr (by decide)⟩
  · show sqSum [(1 : ℝ), 0] ≠ 0
    norm_num [sqSum]
  · left
    have : sqSum [(0 : ℝ), 0] = 0 := by norm_num [sqSum]
    rw [this, Real.sqrt_zero]

/-- **C4**: zero retrieved documents yield the "no relevant information"
error outcome from both `ragQuery` and `getRagSearchResults`, and neither
entry point can produce a success outcome whose search returned an empty
document list. -/
theorem C4_no_results_is_error :
    (∀ (q : String) (emb : List ℝ) (sr : RagResult)
        (llm : String → Except String String) (t : ℕ),
      sr.documents = [] →
      ragQuery (.ok q) (.ok ()) (.ok emb) (.ok sr) llm t =
        ⟨false, none, none, some "No relevant information found in the database"⟩) ∧
    (∀ (v : Except String String) (i : Except String Unit)
        (e : Except String (List ℝ)) (s : Except String RagResult)
        (llm : String → Except String String) (t : ℕ),
      (ragQuery v i e s llm t).success = true →
      ∃ sr, s = .ok sr ∧ sr.documents ≠ []) ∧
    (∀ (q : String) (sr : RagResult) (t : ℕ),
      sr.documents = [] →
      getRagSearchResults (.ok q) (.ok ()) (.ok sr) t =
        ⟨false, none, some "No relevant information found in the database"⟩) ∧
    (∀ (v : Except String String) (i : Except String Unit)
        (s : Except String RagResult) (t : ℕ),
      (getRagSearchResults v i s t).success = true →
      ∃ sr, s = .ok sr ∧ sr.documents ≠ []) := by
  refine ⟨?_, ?_, ?_, ?_⟩
  · intro q emb sr llm t h
    simp [ragQuery, h]
  · intro v i e s llm t h
    cases v with
    | error err => simp [ragQuery] at h
    | ok q =>
      cases i with
      | error err => simp [ragQuery] at h
      | ok u =>
        cases e with
        | error err => simp [ragQuery] at h
        | ok emb =>
          cases s with
          | error err => simp [ragQuery] at h
          | ok sr =>
            refine ⟨sr, rfl, ?_⟩
            by_cases hlen : sr.documents.length = 0
            · simp [ragQuery, hlen] at h
            · intro hnil
              exact hlen (by rw [hnil]; rfl)
  · intro q sr t h
    simp [getRagSearchResults, h]
  · intro v i s t h
    cases v with
    | error err => simp [getRagSearchResults] at h
    | ok q =>
      cases i with
      | error err => simp [getRagSearchResults] at h
      | ok u =>
        cases s with
        | error err => simp [getRagSearchResults] at h
        | ok sr =>
          refine ⟨sr, rfl, ?_⟩
          by_cases hlen : sr.documents.length = 0
          · simp [getRagSearchResults, hlen] at h
          · intro hnil
            exact hlen (by rw [hnil]; rfl)

/-- Witness for C4 at a concrete empty search result. -/
theorem C4_witness :
    (ragQuery (.ok "q") (.ok ()) (.ok []) (.ok ⟨[], [], []⟩)
        (fun _ => .error "no llm") 7 =
      ⟨false, none, none, some "No relevant information found in the database"⟩) ∧
    (getRagSearchResults (.ok "q") (.ok ()) (.ok ⟨[], [], []⟩) 7 =
      ⟨false, none, some "No relevant information found in the database"⟩) :=
  ⟨C4_no_results_is_error.1 "q" [] ⟨[], [], []⟩ (fun _ => .error "no llm") 7 rfl,
   C4_no_results_is_error.2.2.1 "q" ⟨[], [], []⟩ 7 rfl⟩

lemma sqSum_nil : sqSum ([] : List ℝ) = 0 := by simp [sqSum]

lemma query_single (i t : String) :
    query ⟨[⟨i, t, []⟩]⟩ (Sum.inr []) 1 = .ok ⟨[t], [i], [1]⟩ := by
  have hcs : cosineSimilarity [] [] = .ok 0 :=
    cosineSimilarity_zero_mag [] [] rfl (by left; rw [sqSum_nil, Real.sqrt_zero])
  rw [query_inr _ _ _ (by simp)]
  simp [mapE, scoreDoc, hcs, List.mergeSort_singleton]

set_option maxRecDepth 20000 in
/-- **C7 counterexample**: ingesting the claim's record set stores the
*enriched* text, so the documents retrieved for it are the enriched text and
the prompt assembled from them does not contain the contiguous literal
`Context:\nA banana is a yellow fruit.\n\nQuestion: What fruits are
yellow?\nAnswer:` — after "fruit." the prompt continues with the region
sentence, not with the Question line. -/
theorem C7_counterexample :
    (query (addDocuments ⟨[]⟩ (prepareBatch [item1]).1 (prepareBatch [item1]).2.1
        (prepareBatch [item1]).2.2) (Sum.inr []) 1).map (fun r => r.documents) =
      .ok [enrichText item1] ∧
    ¬ ("Context:\nA banana is a yellow fruit.\n\nQuestion: What fruits are yellow?\nAnswer:".toList <:+:
        (buildPrompt "What fruits are yellow?"
          (String.intercalate "\n" [enrichText item1])).toList) := by
  constructor
  · rw [show addDocuments ⟨[]⟩ (prepareBatch [item1]).1 (prepareBatch [item1]).2.1
        (prepareBatch [item1]).2.2 = ⟨[⟨"1", enrichText item1, []⟩]⟩ from rfl]
    rw [query_single]
    rfl
  · decide

/-- **C7 (amended)**: with a non-empty retrieval, `ragQuery` invokes the
language model on exactly the fixed instruction template followed by the
newline-joined retrieved document texts and the literal question. For the
record set `[{id:"1", text:"A banana is a yellow fruit.", region:"Tropical",
type:"Fruit"}]` the retrieved text is the enriched text, so the prompt for
the question "What fruits are yellow?" is the literal string containing the
lines `Context:\nA banana is a yellow fruit. This food is popular in
Tropical. It is a type of Fruit.\n\nQuestion: What fruits are
yellow?\nAnswer:`. -/
theorem C7_prompt_assembly :
    (∀ (q : String) (emb : List ℝ) (sr : RagResult)
        (llm : String → Except String String) (t : ℕ) (ans : String),
      sr.documents ≠ [] →
      llm ("Use the following context to answer the question.\n\nContext:\n" ++
          String.intercalate "\n" sr.documents ++
          "\n\nQuestion: " ++ q ++ "\nAnswer:") = .ok ans →
      (ragQuery (.ok q) (.ok ()) (.ok emb) (.ok sr) llm t).success = true ∧
      (ragQuery (.ok q) (.ok ()) (.ok emb) (.ok sr) llm t).llmResponse = some ans) ∧
    (query (addDocuments ⟨[]⟩ (prepareBatch [item1]).1 (prepareBatch [item1]).2.1
        (prepareBatch [item1]).2.2) (Sum.inr []) 1).map (fun r => r.documents) =
      .ok [enrichText item1] ∧
    buildPrompt "What fruits are yellow?"
        (String.intercalate "\n" [enrichText item1]) =
      "Use the following context to answer the question.\n\nContext:\nA banana is a yellow fruit. This food is popular in Tropical. It is a type of Fruit.\n\nQuestion: What fruits are yellow?\nAnswer:" := by
  refine ⟨?_, ?_, rfl⟩
  · intro q emb sr llm t ans hne hllm
    have hlen : ¬(sr.documents.length = 0) := by
      simpa [List.length_eq_zero] using hne
    constructor <;> simp [ragQuery, hlen, buildPrompt, hllm]
  · rw [show addDocuments ⟨[]⟩ (prepareBatch [item1]).1 (prepareBatch [item1]).2.1
        (prepareBatch [item1]).2.2 = ⟨[⟨"1", enrichText item1, []⟩]⟩ from rfl]
    rw [query_single]
    rfl

/-- Witness for the amended C7 at the spec's example record, retrieved with
its enriched stored text. -/
theorem C7_witness :
    (ragQuery (.ok "What fruits are yellow?") (.ok ()) (.ok [])
        (.ok ⟨[enrichText item1], ["1"], [(1 : ℝ) / 4]⟩)
        (fun _ => .ok "Bananas are yellow.") 0).success = true ∧
    (ragQuery (.ok "What fruits are yellow?") (.ok ()) (.ok [])
        (.ok ⟨[enrichText item1], ["1"], [(1 : ℝ) / 4]⟩)
        (fun _ => .ok "Bananas are yellow.") 0).llmResponse =
      some "Bananas are yellow." :=
  C7_prompt_assembly.1 "What fruits are yellow?" []
    ⟨[enrichText item1], ["1"], [(1 : ℝ) / 4]⟩
    (fun _ => .ok "Bananas are yellow.") 0 "Bananas are yellow."
    (by simp) rfl

/-- **C8**: every success outcome carries similarity scores equal to
`max 0 (1 − distance)` for the corresponding reported distances, and a
`resultCount` equal to the number of returned documents, in both the combined
and the search-only entry points. -/
theorem C8_similarity_scores :
    (∀ (q : String) (emb : List ℝ) (sr : RagResult)
        (llm : String → Except String String) (t : ℕ) (ans : String),
      sr.documents ≠ [] →
      llm (buildPrompt q (String.intercalate "\n" sr.documents)) = .ok ans →
      ragQuery (.ok q) (.ok ()) (.ok emb) (.ok sr) llm t =
        ⟨true, some ans,
          some ⟨sr.documents, sr.ids,
            sr.distances.map (fun distance => max 0 (1 - distance)),
            t, sr.documents.length⟩,
          none⟩) ∧
    (∀ (q : String) (sr : RagResult) (t : ℕ),
      sr.documents ≠ [] →
      getRagSearchResults (.ok q) (.ok ()) (.ok sr) t =
        ⟨true,
          some ⟨sr.documents, sr.ids,
            sr.distances.map (fun distance => max 0 (1 - distance)),
            t, sr.documents.length⟩,
          none⟩) := by
  constructor
  · intro q emb sr llm t ans hne hllm
    have hlen : ¬(sr.documents.length = 0) := by
      simpa [List.length_eq_zero] using hne
    simp [ragQuery, hlen, hllm]
  · intro q sr t hne
    have hlen : ¬(sr.documents.length = 0) := by
      simpa [List.length_eq_zero] using hne
    simp [getRagSearchResults, hlen]

/-- Witness for C8 at a concrete search result with distances 1/4 and 2. -/
theorem C8_witness :
    ragQuery (.ok "q") (.ok ()) (.ok [])
        (.ok ⟨["da", "db"], ["a", "b"], [(1 : ℝ) / 4, 2]⟩)
        (fun _ => .ok "ans") 5 =
      ⟨true, some "ans",
        some ⟨["da", "db"], ["a", "b"],
          ([(1 : ℝ) / 4, 2]).map (fun distance => max 0 (1 - distance)),
          5, (["da", "db"] : List String).length⟩,
        none⟩ :=
  C8_similarity_scores.1 "q" [] ⟨["da", "db"], ["a", "b"], [(1 : ℝ) / 4, 2]⟩
    (fun _ => .ok "ans") 5 "ans" (by simp) rfl

/-- **C9**: whenever any step of `initializeProviders` fails, every provider
handle and the initialized flag are reset to the uninitialized state before
the error propagates, regardless of what partial state existed before the
call. -/
theorem C9_reset_on_failure :
    ∀ (s : ProviderState) (createDb : Except String ℕ) (initDb : Except String Unit)
      (createEmbedding : Except String ℕ) (createLlm : Except String ℕ) (e : String),
      (initializeProviders s createDb initDb createEmbedding createLlm).1 = .error e →
      (initializeProviders s createDb initDb createEmbedding createLlm).2 =
        initialProviderState := by
  intro s createDb initDb createEmbedding createLlm e h
  cases h1 : (match s.dbInstance with | some d => Except.ok d | none => createDb) with
  | error e1 => simp [initializeProviders, h1]
  | ok db =>
    cases h2 : (if s.isInitialized then Except.ok () else initDb) with
    | error e2 => simp [initializeProviders, h1, h2]
    | ok u =>
      cases h3 : (match s.embeddingInstance with
                  | some x => Except.ok x
                  | none => createEmbedding) with
      | error e3 => simp [initializeProviders, h1, h2, h3]
      | ok emb =>
        cases h4 : (match s.llmInstance with
                    | some x => Except.ok x
                    | none => createLlm) with
        | error e4 => simp [initializeProviders, h1, h2, h3, h4]
        | ok llm => simp [initializeProviders, h1, h2, h3, h4] at h

/-- Witness for C9: a partially-built state whose database initialization
step fails. -/
theorem C9_witness :
    (initializeProviders ⟨some 1, none, none, false⟩ (.ok 5) (.error "init failed")
      (.ok 6) (.ok 7)).2 = initialProviderState :=
  C9_reset_on_failure ⟨some 1, none, none, false⟩ (.ok 5) (.error "init failed")
    (.ok 6) (.ok 7) "init failed" rfl

lemma withRetryLoop_succ (op : ℕ → Except String α) (rem attempt : ℕ)
    (lastError : Option String) (delays : List ℕ) :
    withRetryLoop op (rem + 1) attempt lastError delays =
      match op attempt with
      | .ok v => (.ok v, delays)
      | .error e =>
        if attempt < RETRY_COUNT then
          withRetryLoop op rem (attempt + 1) (some e)
            (delays ++ [RETRY_DELAY * 2 ^ (attempt - 1)])
        else
          withRetryLoop op rem (attempt + 1) (some e) delays := rfl

lemma withRetryLoop_zero (op : ℕ → Except String α) (attempt : ℕ)
    (lastError : Option String) (delays : List ℕ) :
    withRetryLoop op 0 attempt lastError delays =
      (.error ("Operation failed after " ++ toString RETRY_COUNT ++
        " attempts. Last error: " ++
        (match lastError with | some m => m | none => "undefined")), delays) := rfl

/-- **C1 counterexample**: when every attempt fails, the delays actually slept
between attempts are 1000 ms and 2000 ms only — there is never a 4000 ms
backoff, because the third attempt is the last one. The final error does
surface the last attempt's error. -/
theorem C1_counterexample :
    (withRetry failOp).2 = [1000, 2000] ∧
    (withRetry failOp).2 ≠ [1000, 2000, 4000] ∧
    4000 ∉ (withRetry failOp).2 ∧
    (withRetry failOp).1 =
      .error "Operation failed after 3 attempts. Last error: boom" := by
  refine ⟨rfl, by decide, by decide, rfl⟩

/-- **C1 (amended)**: `withRetry` makes up to 3 attempts with exponential
backoff starting at 1 second — delays of 1 s then 2 s between attempts; the
first successful attempt's result is returned with no error (in particular a
third-attempt success after two failures returns the result after the 1 s and
2 s backoffs), and if all three attempts fail the last error is surfaced to
the caller. -/
theorem C1_retry_behavior {α : Type} (op : ℕ → Except String α) :
    (∀ v, op 1 = .ok v → withRetry op = (.ok v, [])) ∧
    (∀ e1 v, op 1 = .error e1 → op 2 = .ok v → withRetry op = (.ok v, [1000])) ∧
    (∀ e1 e2 v, op 1 = .error e1 → op 2 = .error e2 → op 3 = .ok v →
      withRetry op = (.ok v, [1000, 2000])) ∧
    (∀ e1 e2 e3, op 1 = .error e1 → op 2 = .error e2 → op 3 = .error e3 →
      withRetry op =
        (.error ("Operation failed after 3 attempts. Last error: " ++ e3),
          [1000, 2000])) := by
  have hstart : ∀ r, withRetry op = r ↔ withRetryLoop op (2 + 1) 1 none [] = r :=
    fun r => Iff.rfl
  refine ⟨?_, ?_, ?_, ?_⟩
  · intro v h1
    rw [hstart, withRetryLoop_succ, h1]
  · intro e1 v h1 h2
    rw [hstart]
    norm_num [withRetryLoop_succ, h1, h2, RETRY_COUNT, RETRY_DELAY]
  · intro e1 e2 v h1 h2 h3
    rw [hstart]
    norm_num [withRetryLoop_succ, h1, h2, h3, RETRY_COUNT, RETRY_DELAY]
  · intro e1 e2 e3 h1 h2 h3
    rw [hstart]
    norm_num [withRetryLoop_succ, withRetryLoop_zero, h1, h2, h3,
      RETRY_COUNT, RETRY_DELAY]
    rfl

/-- Witness for the amended C1: an operation failing twice and succeeding on
the third attempt returns the success after backoffs of 1 s and 2 s. -/
theorem C1_witness : withRetry thirdTryOp = (.ok 42, [1000, 2000]) :=
  (C1_retry_behavior thirdTryOp).2.2.1 "fail 1" "fail 2" 42 rfl rfl rfl

lemma query_inl_nonempty (store : SimpleStore) (s : String) (k : ℕ)
    (hne : store.documents ≠ []) :
    query store (Sum.inl s) k =
      .error "SimpleVectorDatabase does not support text queries. Please provide vector embeddings." := by
  unfold query
  rw [if_neg (by simp [List.isEmpty_iff, hne])]

lemma query_inl_empty (store : SimpleStore) (s : String) (k : ℕ)
    (h : store.documents = []) :
    query store (Sum.inl s) k = .ok ⟨[], [], []⟩ := by
  unfold query
  rw [if_pos (by simp [List.isEmpty_iff, h])]

/-- **C10 counterexample**: on an *empty* local store, a free-text query does
not throw the "text queries not supported" error — the empty-store
short-circuit returns an empty OK result first. -/
theorem C10_counterexample :
    query ⟨[]⟩ (Sum.inl "What fruits are yellow?") 3 = Except.ok ⟨[], [], []⟩ := rfl

/-- **C10 (amended)**: on a non-empty local store every free-text query throws
the "text queries not supported" error; on an empty store it returns the
empty result instead of throwing; in either case (and whatever the provider
initialization outcome) the search-only entry point backed by the local
fallback store returns an error outcome, never success. -/
theorem C10_text_query :
    (∀ (store : SimpleStore) (s : String) (k : ℕ), store.documents ≠ [] →
      query store (Sum.inl s) k =
        .error "SimpleVectorDatabase does not support text queries. Please provide vector embeddings.") ∧
    (∀ (store : SimpleStore) (s : String) (k : ℕ), store.documents = [] →
      query store (Sum.inl s) k = .ok ⟨[], [], []⟩) ∧
    (∀ (store : SimpleStore) (q : String) (initRes : Except String Unit) (t : ℕ),
      (getRagSearchResults (.ok q) initRes
        (query store (Sum.inl q) DEFAULT_RAG_RESULTS) t).success = false) := by
  refine ⟨query_inl_nonempty, query_inl_empty, ?_⟩
  intro store q initRes t
  by_cases hdoc : store.documents = []
  · rw [query_inl_empty store q DEFAULT_RAG_RESULTS hdoc]
    cases initRes <;> simp [getRagSearchResults]
  · rw [query_inl_nonempty store q DEFAULT_RAG_RESULTS hdoc]
    cases initRes <;> simp [getRagSearchResults]

/-- Witness for the amended C10 at concrete stores. -/
theorem C10_witness :
    (query ⟨[⟨"a", "ta", []⟩]⟩ (Sum.inl "hello") 3 =
      .error "SimpleVectorDatabase does not support text queries. Please provide vector embeddings.") ∧
    (query ⟨[]⟩ (Sum.inl "hello") 3 = .ok ⟨[], [], []⟩) ∧
    ((getRagSearchResults (.ok "hello") (.ok ())
      (query ⟨[⟨"a", "ta", []⟩]⟩ (Sum.inl "hello") DEFAULT_RAG_RESULTS) 0).success =
        false) :=
  ⟨C10_text_query.1 ⟨[⟨"a", "ta", []⟩]⟩ "hello" 3 (by simp),
   C10_text_query.2.1 ⟨[]⟩ "hello" 3 rfl,
   C10_text_query.2.2 ⟨[⟨"a", "ta", []⟩]⟩ "hello" (.ok ()) 0⟩

/-- **C2 counterexample**: after ingesting the example record (with region and
type), the text stored for it — and returned by a subsequent query — is the
*enriched* text, not the original unenriched text, which refutes the claim
that the retrievable/display text remains the original. -/
theorem C2_counterexample :
    query (addDocuments ⟨[]⟩ [enrichText item1] [[]] ["1"]) (Sum.inr []) 1 =
      .ok ⟨[enrichText item1], ["1"], [1]⟩ ∧
    enrichText item1 ≠ item1.text := by
  constructor
  · rw [show addDocuments ⟨[]⟩ [enrichText item1] [[]] ["1"] =
        ⟨[⟨"1", enrichText item1, []⟩]⟩ from rfl]
    exact query_single "1" (enrichText item1)
  · decide

/-- **C2 (amended)**: the ingestion job hands the store/embedder the indexed
text enriched with the region and type sentences ("This food is popular in
{region}.", "It is a type of {type}."); the text stored for the record — and
therefore the text returned by a subsequent query for that record — is that
enriched text, not the original unenriched text. -/
theorem C2_enrichment (item : FoodItem) (st : SimpleStore) :
    (prepareBatch [item]).1 = [enrichText item] ∧
    (∀ r ty, item.region = some r → item.type = some ty →
      enrichText item = item.text ++ " This food is popular in " ++ r ++ "." ++
        " It is a type of " ++ ty ++ ".") ∧
    (addDocuments st [enrichText item] [[]] [item.id]).documents.getLast? =
      some ⟨item.id, enrichText item, []⟩ ∧
    (query ⟨[⟨item.id, enrichText item, []⟩]⟩ (Sum.inr []) 1).map
        (fun r => r.documents) =
      .ok [enrichText item] := by
  refine ⟨rfl, ?_, ?_, ?_⟩
  · intro r ty hr hty
    simp [enrichText, hr, hty, String.append_assoc]
  · rw [addDocuments_single]
    simp [upsert]
  · rw [query_single]
    rfl

/-- Witness for the amended C2 at the spec's example record. -/
theorem C2_witness :
    (prepareBatch [item1]).1 = [enrichText item1] ∧
    (enrichText item1 = item1.text ++ " This food is popular in " ++ "Tropical" ++
      "." ++ " It is a type of " ++ "Fruit" ++ ".") ∧
    (addDocuments ⟨[]⟩ [enrichText item1] [[]] [item1.id]).documents.getLast? =
      some ⟨item1.id, enrichText item1, []⟩ ∧
    (query ⟨[⟨item1.id, enrichText item1, []⟩]⟩ (Sum.inr []) 1).map
        (fun r => r.documents) =
      .ok [enrichText item1] := by
  have h := C2_enrichment item1 ⟨[]⟩
  exact ⟨h.1, h.2.1 "Tropical" "Fruit" rfl rfl, h.2.2.1, h.2.2.2⟩
